import Mathlib

/-!
# Verification of the hetzner-mcp API-access core

Shallow embedding of the two API clients in `src/clients/robot.ts`
(`RobotClient`, the shared helpers of `common.ts`, and `CloudClient`):

* the bounded-concurrency FIFO admission queue (`RobotClient.enqueue` /
  `RobotClient.processQueue`),
* the retrying request loop (`RobotClient.doRequest`) with its backoff
  policy,
* the form encoder (`RobotClient.flattenFormData`),
* the rate-limit header parser (`parseRateLimitHeaders`) and its use in
  `CloudClient.request`,
* the paginator (`CloudClient.requestAll`) and the action poller
  (`CloudClient.pollAction`).

JavaScript specifics that matter to the embedded code are modelled
explicitly: truthiness of strings and numbers (the empty string and `0`
are falsy), `String(null) = "null"`, `String(undefined) = "undefined"`,
and `parseInt(s, 10)` returning `NaN` (modelled as `none`) when no
leading digits are found.
-/

namespace HetznerMcp

/-! ## Admission queue (`RobotClient.enqueue` / `RobotClient.processQueue`)

State is the pair of the `activeRequests` counter and the
`requestQueue` list of pending tasks (tasks are identified by `Nat`
ids).  `submit` models `enqueue`: a task whose `run` closure fires
immediately when `activeRequests < maxConcurrent`, and is appended to
the queue otherwise.  `complete` models the `finally` block of `run`:
whatever the task's outcome, the counter is decremented and
`processQueue` dispatches pending tasks while capacity remains. -/

/-- `maxConcurrent` field of `RobotClient` (source line 25). -/
def maxConcurrent : Nat := 2

/-- State of one `RobotClient` instance's queue bookkeeping. -/
structure QueueState where
  activeRequests : Nat
  requestQueue : List Nat
  deriving DecidableEq, Repr

/-- `RobotClient.processQueue`: shift tasks off the front of the queue
and start them (each start increments `activeRequests`, as the started
`run` closure does) while the queue is non-empty and
`activeRequests < maxConcurrent`.  Returns the new `(activeRequests,
requestQueue)` pair together with the list of tasks started, in start
order. -/
def processQueueGo (a : Nat) : List Nat → (Nat × List Nat) × List Nat
  | [] => ((a, []), [])
  | t :: rest =>
    if a < maxConcurrent then
      let r := processQueueGo (a + 1) rest
      (r.1, t :: r.2)
    else ((a, t :: rest), [])

/-- `RobotClient.processQueue` acting on a `QueueState`. -/
def processQueue (s : QueueState) : QueueState × List Nat :=
  let r := processQueueGo s.activeRequests s.requestQueue
  (⟨r.1.1, r.1.2⟩, r.2)

/-- `RobotClient.enqueue`: if `activeRequests < maxConcurrent` the task
runs now (`run()` increments the counter); otherwise it is pushed on
the back of `requestQueue`.  The boolean reports whether the task
started immediately. -/
def submit (s : QueueState) (t : Nat) : QueueState × Bool :=
  if s.activeRequests < maxConcurrent then
    (⟨s.activeRequests + 1, s.requestQueue⟩, true)
  else
    (⟨s.activeRequests, s.requestQueue ++ [t]⟩, false)

/-- The `finally` block of the `run` closure in `enqueue`: runs whether
`fn()` resolved or threw, so it takes the task's outcome and ignores
it — `activeRequests--` followed by `processQueue()`.  Returns the new
state and the tasks started by the ensuing dispatch. -/
def complete (s : QueueState) (_succeeded : Bool) : QueueState × List Nat :=
  processQueue ⟨s.activeRequests - 1, s.requestQueue⟩

/-- Events the queue reacts to: a caller submitting a task, or a
running task finishing with the given outcome. -/
inductive QEvent where
  | submitEv (t : Nat)
  | completeEv (succeeded : Bool)
  deriving DecidableEq, Repr

/-- Apply one event to the queue state. -/
def applyEvent (s : QueueState) : QEvent → QueueState
  | .submitEv t => (submit s t).1
  | .completeEv b => (complete s b).1

/-- Run a sequence of events from a state. -/
def runEvents (s : QueueState) : List QEvent → QueueState
  | [] => s
  | e :: es => runEvents (applyEvent s e) es

/-- The queue state of a freshly constructed `RobotClient`. -/
def initialQueueState : QueueState := ⟨0, []⟩

/-! ### Queue lemmas -/

theorem processQueueGo_active_le (a : Nat) (l : List Nat)
    (h : a ≤ maxConcurrent) : (processQueueGo a l).1.1 ≤ maxConcurrent := by
  induction l generalizing a with
  | nil => simpa [processQueueGo] using h
  | cons t rest ih =>
    by_cases hlt : a < maxConcurrent
    · simpa [processQueueGo, hlt] using ih (a + 1) hlt
    · simpa [processQueueGo, hlt] using h

theorem processQueueGo_fifo (a : Nat) (l : List Nat) :
    (processQueueGo a l).2 ++ (processQueueGo a l).1.2 = l := by
  induction l generalizing a with
  | nil => simp [processQueueGo]
  | cons t rest ih =>
    by_cases hlt : a < maxConcurrent
    · simp [processQueueGo, hlt, ih (a + 1)]
    · simp [processQueueGo, hlt]

theorem submit_active_le (s : QueueState) (t : Nat)
    (h : s.activeRequests ≤ maxConcurrent) :
    ((submit s t).1).activeRequests ≤ maxConcurrent := by
  by_cases hlt : s.activeRequests < maxConcurrent
  · simp only [submit, if_pos hlt]
    omega
  · simpa [submit, hlt] using h

theorem complete_active_le (s : QueueState) (b : Bool)
    (h : s.activeRequests ≤ maxConcurrent) :
    ((complete s b).1).activeRequests ≤ maxConcurrent := by
  simp only [complete, processQueue]
  exact processQueueGo_active_le _ _ (by omega)

theorem runEvents_active_le (s : QueueState)
    (h : s.activeRequests ≤ maxConcurrent) (es : List QEvent) :
    (runEvents s es).activeRequests ≤ maxConcurrent := by
  induction es generalizing s with
  | nil => simpa [runEvents] using h
  | cons e es ih =>
    cases e with
    | submitEv t => exact ih _ (submit_active_le s t h)
    | completeEv b => exact ih _ (complete_active_le s b h)

theorem processQueueGo_at_capacity (l : List Nat) :
    processQueueGo maxConcurrent l = ((maxConcurrent, l), []) := by
  cases l with
  | nil => simp [processQueueGo]
  | cons t rest => simp [processQueueGo]

/-- **C1.** For the `RobotClient` admission queue:
(1) along every event sequence from the initial state, at most
`maxConcurrent = 2` tasks are active at any instant;
(2) `processQueue` starts pending tasks from the front, in exactly the
order they sit in the queue (the started list concatenated with the
remaining queue is the original queue), and a task submitted at
capacity is appended to the back and not started, so waiting tasks
start in submission order;
(3) a task that completes by throwing is handled exactly like a
successful one — the slot is released either way — and a failing
completion at capacity immediately starts the next pending task. -/
theorem c1_admission_queue :
    (∀ es : List QEvent,
      (runEvents initialQueueState es).activeRequests ≤ maxConcurrent) ∧
    (∀ (a : Nat) (l : List Nat),
      (processQueueGo a l).2 ++ (processQueueGo a l).1.2 = l) ∧
    (∀ (s : QueueState) (t : Nat), ¬ s.activeRequests < maxConcurrent →
      (submit s t).1.requestQueue = s.requestQueue ++ [t] ∧
      (submit s t).2 = false) ∧
    (∀ s : QueueState, complete s false = complete s true) ∧
    (∀ (t : Nat) (rest : List Nat),
      complete ⟨maxConcurrent, t :: rest⟩ false = (⟨maxConcurrent, rest⟩, [t])) := by
  refine ⟨fun es => runEvents_active_le _ (by simp [initialQueueState]) es,
    processQueueGo_fifo, ?_, fun s => rfl, ?_⟩
  · intro s t h
    simp [submit, h]
  · intro t rest
    have h2 := processQueueGo_at_capacity rest
    simp only [maxConcurrent] at h2
    simp [complete, processQueue, processQueueGo, maxConcurrent, h2]

/-- Witness for **C1**: concrete instances of each conjunct, including
the discharge of the at-capacity hypothesis at the state `⟨2, []⟩`. -/
theorem c1_admission_queue_witness :
    (runEvents initialQueueState
      [.submitEv 1, .submitEv 2, .submitEv 3]).activeRequests ≤ maxConcurrent ∧
    (submit ⟨2, []⟩ 5).1.requestQueue = [] ++ [5] ∧
    complete ⟨maxConcurrent, [7]⟩ false = (⟨maxConcurrent, []⟩, [7]) :=
  ⟨c1_admission_queue.1 [.submitEv 1, .submitEv 2, .submitEv 3],
   (c1_admission_queue.2.2.1 ⟨2, []⟩ 5 (by decide)).1,
   c1_admission_queue.2.2.2.2 7 []⟩

/-! ## JavaScript primitives used by the clients

`parseInt(s, 10)` and string/number truthiness, modelled explicitly.
`jsParseInt` returns `none` where JavaScript returns `NaN`. -/

/-- The whitespace characters skipped by `parseInt` (the common ones;
JavaScript also skips further Unicode space characters, none of which
occur in the headers modelled here). -/
def jsWhitespaceChar (c : Char) : Bool :=
  c == ' ' || c == '\t' || c == '\n' || c == '\r'

/-- Accumulate the value of the longest leading run of decimal digits. -/
def takeDigitsVal : List Char → Nat → Nat
  | [], acc => acc
  | c :: rest, acc =>
    if c.isDigit then takeDigitsVal rest (acc * 10 + (c.toNat - 48)) else acc

/-- Whether the first character is a decimal digit. -/
def hasLeadingDigit : List Char → Bool
  | [] => false
  | c :: _ => c.isDigit

/-- `parseInt(s, 10)`: skip leading whitespace, accept an optional
sign, then read the longest run of decimal digits; `NaN` (here `none`)
when no digit follows. -/
def jsParseInt (s : String) : Option Int :=
  let cs := s.data.dropWhile (fun c => jsWhitespaceChar c)
  match cs with
  | '-' :: rest =>
    if hasLeadingDigit rest then some (-(takeDigitsVal rest 0 : Int)) else none
  | '+' :: rest =>
    if hasLeadingDigit rest then some ((takeDigitsVal rest 0 : Int)) else none
  | _ => if hasLeadingDigit cs then some ((takeDigitsVal cs 0 : Int)) else none

/-- Truthiness of a `headers.get(...)` result (`string | null`): `null`
and the empty string are falsy. -/
def jsTruthyStr : Option String → Bool
  | none => false
  | some s => s ≠ ""

/-! ## Backoff policy and retry loop (`RobotClient.doRequest`)

`doRequest` runs up to `maxRetries = 3` attempts.  Per attempt the
fetch either yields a response, aborts on the 30 s timer
(`AbortError`), or fails at the network level.  The embedding is
parametric in the environment: `outcomes n` is what the fetch of
attempt `n` would produce and `jitter n` the `Math.random() * 1000`
draw of attempt `n` (each attempt performs at most one draw). -/

/-- `maxRetries` field of `RobotClient` (source line 20). -/
def maxRetries : Nat := 3

/-- The delay computed at source lines 82–86:
`retryAfter ? parseInt(retryAfter, 10) * 1000
            : Math.pow(2, attempt) * 1000 + jitter`.
`none` models a `NaN` delay (non-numeric `Retry-After` header). -/
def backoffDelay (retryAfter : Option String) (attempt : Nat) (jitter : ℚ) :
    Option ℚ :=
  if jsTruthyStr retryAfter then
    (jsParseInt (retryAfter.getD "")).map fun h => (h : ℚ) * 1000
  else
    some ((2 : ℚ) ^ attempt * 1000 + jitter)

/-- The decoded `{error: {code, message}}` body of a non-2xx response,
when the body decoded to JSON carrying an `error` field. -/
structure ErrBodyInfo where
  code : Option String
  message : Option String
  deriving DecidableEq, Repr

/-- Outcome of the `fetch` of one attempt.  `resp` carries the status,
the `Retry-After` header (`headers.get` result), whether
`content-length` is `"0"`, the decoded error body (for the non-2xx
path), `statusText`, and the result of `response.json()` on the
success path (`Except.error m` models a rejected decode with message
`m`).  `timeout` is an `AbortError` from the 30 s timer; `netError m`
any other rejection with message `m`. -/
inductive FetchOutcome (T : Type) where
  | resp (status : Nat) (retryAfter : Option String) (contentLength0 : Bool)
      (errBody : Option ErrBodyInfo) (statusText : String)
      (json : Except String T)
  | timeout
  | netError (msg : String)

/-- Result of `doRequest` as seen by the caller. -/
inductive ReqResult (T : Type) where
  | ok (v : T)
  | emptyOk
  | apiError (status : Nat) (code : String) (message : String)
  | timeoutErr
  | exhausted (lastMsg : Option String)
  deriving DecidableEq, Repr

/-- What one run of `doRequest` did: the surfaced result, the delays
slept (in order; `none` is a `NaN` delay), and how many fetches were
issued. -/
structure RunTrace (T : Type) where
  result : ReqResult T
  sleeps : List (Option ℚ)
  fetches : Nat
  deriving DecidableEq, Repr

/-- The `for (let attempt = 0; attempt < this.maxRetries; attempt++)`
loop of `doRequest`, from attempt `attempt` with `r` loop iterations
remaining and `lastErr` the current `lastError` message. -/
def doRequestGo {T : Type} (outcomes : Nat → FetchOutcome T)
    (jitter : Nat → ℚ) : Nat → Nat → Option String → RunTrace T
  | _, 0, lastErr => ⟨.exhausted lastErr, [], 0⟩
  | attempt, r + 1, lastErr =>
    match outcomes attempt with
    | .resp status retryAfter cl0 errBody statusText json =>
      if status = 429 ∨ status = 403 then
        let d := backoffDelay retryAfter attempt (jitter attempt)
        let rest := doRequestGo outcomes jitter (attempt + 1) r lastErr
        ⟨rest.result, d :: rest.sleeps, rest.fetches + 1⟩
      else if ¬ (200 ≤ status ∧ status ≤ 299) then
        ⟨.apiError status ((errBody.bind ErrBodyInfo.code).getD "UNKNOWN")
            ((errBody.bind ErrBodyInfo.message).getD statusText), [], 1⟩
      else if status = 204 ∨ cl0 then ⟨.emptyOk, [], 1⟩
      else
        match json with
        | .ok v => ⟨.ok v, [], 1⟩
        | .error msg =>
          if attempt < maxRetries - 1 then
            let d := (2 : ℚ) ^ attempt * 1000 + jitter attempt
            let rest := doRequestGo outcomes jitter (attempt + 1) r (some msg)
            ⟨rest.result, some d :: rest.sleeps, rest.fetches + 1⟩
          else
            let rest := doRequestGo outcomes jitter (attempt + 1) r (some msg)
            ⟨rest.result, rest.sleeps, rest.fetches + 1⟩
    | .timeout => ⟨.timeoutErr, [], 1⟩
    | .netError msg =>
      if attempt < maxRetries - 1 then
        let d := (2 : ℚ) ^ attempt * 1000 + jitter attempt
        let rest := doRequestGo outcomes jitter (attempt + 1) r (some msg)
        ⟨rest.result, some d :: rest.sleeps, rest.fetches + 1⟩
      else
        let rest := doRequestGo outcomes jitter (attempt + 1) r (some msg)
        ⟨rest.result, rest.sleeps, rest.fetches + 1⟩

/-- One full `doRequest` call: attempts `0, 1, 2`, `lastError = null`. -/
def doRequestRun {T : Type} (outcomes : Nat → FetchOutcome T)
    (jitter : Nat → ℚ) : RunTrace T :=
  doRequestGo outcomes jitter 0 maxRetries none

theorem doRequestGo_fetches_pos {T : Type} (outcomes : Nat → FetchOutcome T)
    (jitter : Nat → ℚ) (attempt r : Nat) (lastErr : Option String) :
    1 ≤ (doRequestGo outcomes jitter attempt (r + 1) lastErr).fetches := by
  rw [doRequestGo]
  cases outcomes attempt with
  | resp status retryAfter cl0 errBody statusText json =>
    by_cases h1 : status = 429 ∨ status = 403
    · simp [h1]
    · by_cases h2 : ¬ (200 ≤ status ∧ status ≤ 299)
      · simp [h1, h2]
      · by_cases h3 : status = 204 ∨ cl0
        · simp [h1, h2, h3]
        · cases json with
          | ok v => simp [h1, h2, h3]
          | error msg =>
            by_cases h4 : attempt < maxRetries - 1 <;> simp [h1, h2, h3, h4]
  | timeout => simp
  | netError msg =>
    by_cases h4 : attempt < maxRetries - 1 <;> simp [h4]

/-- **C6.** With a server-provided retry hint (truthy `Retry-After`
header parsing to `h`), the 429/403 delay is exactly `h * 1000` ms
with no jitter; with no hint, the delay of attempt `i` lies in
`[2^i * 1000, 2^i * 1000 + 1000)`; and the retry loop's first sleep
after a 429/403 first response is exactly this `backoffDelay`. -/
theorem c6_backoff_policy :
    (∀ (s : String) (h : Int) (attempt : Nat) (j : ℚ),
      s ≠ "" → jsParseInt s = some h →
      backoffDelay (some s) attempt j = some ((h : ℚ) * 1000)) ∧
    (∀ (attempt : Nat) (j : ℚ), 0 ≤ j → j < 1000 →
      ∃ d : ℚ, backoffDelay none attempt j = some d ∧
        (2 : ℚ) ^ attempt * 1000 ≤ d ∧ d < (2 : ℚ) ^ attempt * 1000 + 1000) ∧
    (∀ {T : Type} (outcomes : Nat → FetchOutcome T) (jitter : Nat → ℚ)
      (status : Nat) (ra : Option String) (cl0 : Bool)
      (eb : Option ErrBodyInfo) (st : String) (json : Except String T),
      outcomes 0 = .resp status ra cl0 eb st json →
      (status = 429 ∨ status = 403) →
      (doRequestRun outcomes jitter).sleeps.head? =
        some (backoffDelay ra 0 (jitter 0))) := by
  refine ⟨?_, ?_, ?_⟩
  · intro s h attempt j hs hparse
    simp [backoffDelay, jsTruthyStr, hs, hparse]
  · intro attempt j h0 h1
    refine ⟨(2 : ℚ) ^ attempt * 1000 + j, by simp [backoffDelay, jsTruthyStr], ?_, ?_⟩
    · linarith
    · linarith
  · intro T outcomes jitter status ra cl0 eb st json hout hstatus
    rw [doRequestRun, maxRetries, doRequestGo, hout]
    simp [hstatus]

/-- Witness for **C6**: hint `"2"` at attempt 3 gives exactly 2000 ms;
no hint at attempt 1 with jitter 500 gives a delay in `[2000, 3000)`;
a first response of status 429 with hint `"2"` makes the executor
sleep `backoffDelay (some "2") 0 j` first. -/
theorem c6_backoff_policy_witness :
    backoffDelay (some "2") 3 (500 : ℚ) = some (((2 : Int) : ℚ) * 1000) ∧
    (∃ d : ℚ, backoffDelay none 1 (500 : ℚ) = some d ∧
      (2 : ℚ) ^ 1 * 1000 ≤ d ∧ d < (2 : ℚ) ^ 1 * 1000 + 1000) ∧
    (doRequestRun
        (fun _ => (FetchOutcome.resp 429 (some "2") false none "Too Many Requests"
          (Except.error "no body") : FetchOutcome Unit))
        (fun _ => 500)).sleeps.head? = some (backoffDelay (some "2") 0 500) :=
  ⟨c6_backoff_policy.1 "2" 2 3 500 (by decide) (by decide),
   c6_backoff_policy.2.1 1 500 (by decide) (by decide),
   c6_backoff_policy.2.2
     (fun _ => (FetchOutcome.resp 429 (some "2") false none "Too Many Requests"
       (Except.error "no body") : FetchOutcome Unit))
     (fun _ => 500) 429 (some "2") false none "Too Many Requests"
     (Except.error "no body") rfl (Or.inl rfl)⟩

/-- Counterexample for **C2**: a fetch that times out on the very
first attempt.  `doRequest` surfaces the `TIMEOUT`-coded error after
exactly one fetch and zero sleeps, although two retry attempts
remained — the timeout is *not* retried as the claim states. -/
theorem c2_counterexample :
    doRequestRun (fun _ => (FetchOutcome.timeout : FetchOutcome Unit))
        (fun _ => 0) = ⟨.timeoutErr, [], 1⟩ ∧
    1 < maxRetries := by
  constructor
  · rw [doRequestRun, maxRetries, doRequestGo]
  · decide

/-- **C2 (amended).** A per-attempt timeout (`AbortError` from the
30 s timer) is classified as the distinct `TIMEOUT`-coded error
(status 0, not an upstream `ApiError`) and surfaces immediately, with
no backoff sleep and no further attempt; network errors, by contrast,
are retried (a run whose first attempt is a network error issues at
least a second fetch). -/
theorem c2_timeout_not_retried :
    (∀ {T : Type} (outcomes : Nat → FetchOutcome T) (jitter : Nat → ℚ)
      (attempt r : Nat) (lastErr : Option String),
      outcomes attempt = .timeout →
      doRequestGo outcomes jitter attempt (r + 1) lastErr =
        ⟨.timeoutErr, [], 1⟩) ∧
    (∀ {T : Type} (outcomes : Nat → FetchOutcome T) (jitter : Nat → ℚ)
      (msg : String),
      outcomes 0 = .netError msg →
      2 ≤ (doRequestRun outcomes jitter).fetches) := by
  constructor
  · intro T outcomes jitter attempt r lastErr hout
    rw [doRequestGo, hout]
  · intro T outcomes jitter msg hout
    rw [doRequestRun, maxRetries, doRequestGo, hout]
    have h := doRequestGo_fetches_pos outcomes jitter 1 1 (some msg)
    simp only [show (0 : Nat) < maxRetries - 1 by decide, if_pos]
    simp only [maxRetries] at h ⊢
    simpa using h

/-- Witness for **C2 (amended)**: the concrete all-timeout environment
surfaces `timeoutErr` in one attempt, and a first-attempt network
error leads to a second fetch. -/
theorem c2_timeout_not_retried_witness :
    doRequestGo (fun _ => (FetchOutcome.timeout : FetchOutcome Unit))
        (fun _ => 0) 0 3 none = ⟨.timeoutErr, [], 1⟩ ∧
    2 ≤ (doRequestRun
        (fun _ => (FetchOutcome.netError "ECONNRESET" : FetchOutcome Unit))
        (fun _ => 0)).fetches :=
  ⟨c2_timeout_not_retried.1 (fun _ => FetchOutcome.timeout) (fun _ => 0) 0 2
      none rfl,
   c2_timeout_not_retried.2 (fun _ => FetchOutcome.netError "ECONNRESET")
      (fun _ => 0) "ECONNRESET" rfl⟩

/-- **C7.** At any attempt with retries remaining, a response whose
status is neither 429/403 nor 2xx makes `doRequest` fail immediately
with an `ApiError` carrying the upstream status and the error body's
code/message when present (`"UNKNOWN"` / `statusText` otherwise),
with no sleep and no further fetch. -/
theorem c7_non2xx_immediate_failure {T : Type}
    (outcomes : Nat → FetchOutcome T) (jitter : Nat → ℚ)
    (attempt r : Nat) (lastErr : Option String) (status : Nat)
    (ra : Option String) (cl0 : Bool) (eb : Option ErrBodyInfo)
    (st : String) (json : Except String T)
    (hout : outcomes attempt = .resp status ra cl0 eb st json)
    (hnotRl : ¬ (status = 429 ∨ status = 403))
    (hnotOk : ¬ (200 ≤ status ∧ status ≤ 299)) :
    doRequestGo outcomes jitter attempt (r + 1) lastErr =
      ⟨.apiError status ((eb.bind ErrBodyInfo.code).getD "UNKNOWN")
          ((eb.bind ErrBodyInfo.message).getD st), [], 1⟩ := by
  rw [doRequestGo, hout]
  simp [hnotRl, hnotOk]

/-- Witness for **C7**: a 500 response with error body
`{error: {code: "SERVER_ERROR", message: "boom"}}` on the first
attempt of a full run fails at once with that `ApiError`. -/
theorem c7_non2xx_immediate_failure_witness :
    doRequestGo
        (fun _ => (FetchOutcome.resp 500 none false
          (some ⟨some "SERVER_ERROR", some "boom"⟩) "Internal Server Error"
          (Except.error "x") : FetchOutcome Unit))
        (fun _ => 0) 0 3 none =
      ⟨.apiError 500 "SERVER_ERROR" "boom", [], 1⟩ := by
  have h := c7_non2xx_immediate_failure
    (fun _ => (FetchOutcome.resp 500 none false
      (some ⟨some "SERVER_ERROR", some "boom"⟩) "Internal Server Error"
      (Except.error "x") : FetchOutcome Unit))
    (fun _ => 0) 0 2 none 500 none false
    (some ⟨some "SERVER_ERROR", some "boom"⟩) "Internal Server Error"
    (Except.error "x") rfl (by decide) (by decide)
  simpa using h

/-! ## Form encoder (`RobotClient.flattenFormData`)

JavaScript values as the encoder sees them.  `vNull` / `vUndefined`
are distinct because `typeof null === 'object'` while
`typeof undefined === 'undefined'` (both, however, stringify
differently), and both are skipped by the same
`value === undefined || value === null` test in the object loop. -/

inductive JSValue where
  | vNull
  | vUndefined
  | vBool (b : Bool)
  | vNum (n : Int)
  | vStr (s : String)
  | vArr (elems : List JSValue)
  | vObj (fields : List (String × JSValue))

/-- `String(value)` for the values the encoder can pass to it.  The
`vArr`/`vObj` cases are unreachable from the encoder (both recurse
instead of stringifying); they are given their JavaScript renderings
for an empty array and a plain object. -/
def jsString : JSValue → String
  | .vNull => "null"
  | .vUndefined => "undefined"
  | .vBool b => if b then "true" else "false"
  | .vNum n => toString n
  | .vStr s => s
  | .vArr _ => ""
  | .vObj _ => "[object Object]"

mutual

/-- Size measure for termination of the encoder. -/
def jsSize : JSValue → Nat
  | .vArr elems => 1 + jsSizeList elems
  | .vObj fields => 1 + jsSizeFields fields
  | _ => 1

def jsSizeList : List JSValue → Nat
  | [] => 0
  | v :: rest => 1 + jsSize v + jsSizeList rest

def jsSizeFields : List (String × JSValue) → Nat
  | [] => 0
  | kv :: rest => 1 + jsSize kv.2 + jsSizeFields rest

end

/-- `Object.entries` of an array: index-keyed entries `("0", v0),
`("1", v1)`, … starting at index `i`. -/
def entriesOfArr : List JSValue → Nat → List (String × JSValue)
  | [], _ => []
  | v :: rest, i => (toString i, v) :: entriesOfArr rest (i + 1)

theorem jsSizeFields_entriesOfArr (l : List JSValue) (i : Nat) :
    jsSizeFields (entriesOfArr l i) = jsSizeList l := by
  induction l generalizing i with
  | nil => simp [entriesOfArr, jsSizeFields, jsSizeList]
  | cons v rest ih => simp [entriesOfArr, jsSizeFields, jsSizeList, ih]

mutual

/-- `flattenFormData(formData, obj, prefix)`: iterate the entries of
`obj` in order; `fullKey` is `key` at the top level and
`prefix[key]` below; `null`/`undefined` values are skipped
(`continue`); arrays go to the `forEach` branch, other objects
recurse, scalars append `(fullKey, String(value))`.  The emitted
pairs are returned in append order. -/
def flattenObj : List (String × JSValue) → String → List (String × String)
  | [], _ => []
  | (k, v) :: rest, pre =>
    let fullKey := if pre = "" then k else pre ++ "[" ++ k ++ "]"
    (match v with
     | .vNull => []
     | .vUndefined => []
     | .vArr elems => flattenArr elems fullKey 0
     | .vObj fields => flattenObj fields fullKey
     | other => [(fullKey, jsString other)]) ++ flattenObj rest pre
termination_by l _ => jsSizeFields l
decreasing_by
  all_goals simp [jsSizeFields, jsSizeList, jsSize, jsSizeFields_entriesOfArr]
  all_goals omega

/-- The `value.forEach((item, index) => ...)` branch: an item that is
a non-null object recurses (an array item recurses through
`Object.entries`, which yields its index-keyed entries); *any other
item — including `null` and `undefined` — is appended as
`(fullKey[index], String(item))`*. -/
def flattenArr : List JSValue → String → Nat → List (String × String)
  | [], _, _ => []
  | item :: rest, fullKey, idx =>
    let ik := fullKey ++ "[" ++ toString idx ++ "]"
    (match item with
     | .vArr elems => flattenObj (entriesOfArr elems 0) ik
     | .vObj fields => flattenObj fields ik
     | other => [(ik, jsString other)]) ++ flattenArr rest fullKey (idx + 1)
termination_by l _ _ => jsSizeList l
decreasing_by
  all_goals simp [jsSizeFields, jsSizeList, jsSize, jsSizeFields_entriesOfArr]
  all_goals omega

end

/-- Counterexample for **C5**: a `null` *element of an array* is not
omitted — `flatten({a: [null]})` emits the pair `("a[0]", "null")`,
because the `forEach` branch appends `String(item)` for any item that
is not a non-null object, and the `value === null` skip only guards
object property values. -/
theorem c5_counterexample :
    flattenObj [("a", .vArr [.vNull])] "" = [("a[0]", "null")] ∧
    flattenObj [("a", .vArr [.vNull])] "" ≠ [] := by
  constructor
  · simp [flattenObj, flattenArr, jsString]
    rfl
  · simp [flattenObj, flattenArr, jsString]

/-- **C5 (amended).** A `null` or `undefined` *object property value*
is omitted entirely, at any depth (the entries list and the key
path are arbitrary); `flatten({a: null, b: undefined, c: 1})` yields
exactly the single pair `("c", "1")`.  But a `null`/`undefined`
*element of an array* is emitted as `(key[index], String(item))`,
i.e. `"null"` / `"undefined"`. -/
theorem c5_null_handling :
    (∀ (k : String) (rest : List (String × JSValue)) (pre : String),
      flattenObj ((k, .vNull) :: rest) pre = flattenObj rest pre ∧
      flattenObj ((k, .vUndefined) :: rest) pre = flattenObj rest pre) ∧
    (∀ (rest : List JSValue) (key : String) (idx : Nat),
      flattenArr (.vNull :: rest) key idx =
        (key ++ "[" ++ toString idx ++ "]", "null") ::
          flattenArr rest key (idx + 1) ∧
      flattenArr (.vUndefined :: rest) key idx =
        (key ++ "[" ++ toString idx ++ "]", "undefined") ::
          flattenArr rest key (idx + 1)) ∧
    flattenObj [("a", .vNull), ("b", .vUndefined), ("c", .vNum 1)] "" =
      [("c", "1")] := by
  refine ⟨?_, ?_, ?_⟩
  · intro k rest pre
    constructor <;> simp [flattenObj]
  · intro rest key idx
    constructor <;> simp [flattenArr, jsString]
  · simp [flattenObj, jsString]
    rfl

/-! ## Rate limit tracker (`parseRateLimitHeaders`, `CloudClient.request`)

Headers are modelled by the three `headers.get` results the parser
reads (`string | null`, so `Option String`).  `RateLimitInfo` fields
are `parseInt` results; `none` models `NaN`. -/

/-- The three rate-limit headers of a Cloud API response, as returned
by `headers.get("RateLimit-Limit")` etc. -/
structure RespHeaders where
  rateLimitLimit : Option String
  rateLimitRemaining : Option String
  rateLimitReset : Option String
  deriving DecidableEq, Repr

/-- `RateLimitInfo` of `common.ts` (fields are `parseInt` results;
`none` models `NaN`). -/
structure RateLimitInfo where
  limit : Option Int
  remaining : Option Int
  reset : Option Int
  deriving DecidableEq, Repr

/-- `parseRateLimitHeaders(headers)`: read the three headers; when the
conjunction `limit && remaining && reset` is truthy (all present and
nonempty), return the parsed snapshot, else `null`. -/
def parseRateLimitHeaders (h : RespHeaders) : Option RateLimitInfo :=
  if jsTruthyStr h.rateLimitLimit && jsTruthyStr h.rateLimitRemaining &&
      jsTruthyStr h.rateLimitReset then
    some ⟨jsParseInt (h.rateLimitLimit.getD ""),
      jsParseInt (h.rateLimitRemaining.getD ""),
      jsParseInt (h.rateLimitReset.getD "")⟩
  else none

/-- Decoded `{error: {code, message, details}}` body of a non-2xx
Cloud response (each field optional). -/
structure CloudErrBody where
  code : Option String
  message : Option String
  details : Option String
  deriving DecidableEq, Repr

/-- Outcome of the single `fetch` of `CloudClient.request`. -/
inductive CloudFetchOutcome (T : Type) where
  | resp (status : Nat) (headers : RespHeaders) (contentLength0 : Bool)
      (errBody : Option CloudErrBody) (statusText : String)
      (json : Except String T)
  | timeout
  | netError (msg : String)

/-- Result of `CloudClient.request` as seen by the caller.  `thrown`
is a non-`HetznerApiError` rejection rethrown as-is (network failure
or a rejected `response.json()`). -/
inductive CloudReqResult (T : Type) where
  | ok (v : T)
  | emptyOk
  | apiError (status : Nat) (code : String) (message : String)
      (details : Option String)
  | timeoutErr
  | thrown (msg : String)
  deriving DecidableEq, Repr

/-- The response classification of `CloudClient.request` after the
rate-limit tracking side effect: non-2xx throws `HetznerApiError`
with the body's code/message (`"unknown"` / `statusText` defaults),
204 or `content-length: 0` returns `{}`, otherwise the decoded JSON. -/
def cloudRespResult {T : Type} (status : Nat) (cl0 : Bool)
    (errBody : Option CloudErrBody) (statusText : String)
    (json : Except String T) : CloudReqResult T :=
  if ¬ (200 ≤ status ∧ status ≤ 299) then
    .apiError status ((errBody.bind CloudErrBody.code).getD "unknown")
      ((errBody.bind CloudErrBody.message).getD statusText)
      (errBody.bind CloudErrBody.details)
  else if status = 204 ∨ cl0 then .emptyOk
  else
    match json with
    | .ok v => .ok v
    | .error m => .thrown m

/-- One `CloudClient.request` call: given the current `lastRateLimit`
cell and the fetch outcome, produce the caller-visible result and the
new `lastRateLimit`.  On any received response the cell is overwritten
with `parseRateLimitHeaders` *before* the status is inspected (source
line 400); when the fetch itself rejects, the assignment never runs
and the cell is unchanged. -/
def cloudRequest {T : Type} (lastRateLimit : Option RateLimitInfo) :
    CloudFetchOutcome T → CloudReqResult T × Option RateLimitInfo
  | .resp status headers cl0 errBody statusText json =>
    (cloudRespResult status cl0 errBody statusText json,
      parseRateLimitHeaders headers)
  | .timeout => (.timeoutErr, lastRateLimit)
  | .netError m => (.thrown m, lastRateLimit)

/-! ## Paginator (`CloudClient.requestAll`)

The environment is a `server` function from the requested `page`
parameter to the response.  The value found under the collection key
is either an array or anything else (missing key, `null`, a
non-array value): only `Array.isArray` passes the guard.  The
`while (true)` loop is embedded with fuel; `none` means the fuel ran
out, which is how a non-terminating run shows up at every finite
fuel. -/

/-- The value a page response holds under the collection key. -/
inductive ItemsField (α : Type) where
  | arr (l : List α)
  | notArr
  deriving DecidableEq, Repr

/-- `if (items && Array.isArray(items)) allItems.push(...items)`:
only an array (always truthy, even empty) contributes its elements. -/
def itemsOf {α : Type} : ItemsField α → List α
  | .arr l => l
  | .notArr => []

/-- A page response: collection-key value plus
`meta.pagination.next_page` (`none` = the chain
`meta?.pagination?.next_page` is missing or `null`). -/
structure CloudPage (α : Type) where
  items : ItemsField α
  nextPage : Option Int
  deriving DecidableEq, Repr

/-- The fixed `perPage` of `requestAll` (source line 442). -/
def perPage : Nat := 50

/-- The `while (true)` loop of `requestAll`: request `page`, append
the array found under the key, then `if (!meta?.pagination?.next_page)
break` — the loop stops when `next_page` is absent **or `0`** (falsy)
— else `page = next_page`.  Returns the accumulated items and the log
of `(page, per_page)` parameter pairs requested, or `none` when the
fuel is exhausted. -/
def requestAllGo {α : Type} (server : Int → CloudPage α) :
    Nat → Int → List α → List (Int × Nat) →
    Option (List α × List (Int × Nat))
  | 0, _, _, _ => none
  | fuel + 1, page, acc, log =>
    let r := server page
    let acc2 := acc ++ itemsOf r.items
    let log2 := log ++ [(page, perPage)]
    match r.nextPage with
    | none => some (acc2, log2)
    | some np =>
      if np = 0 then some (acc2, log2)
      else requestAllGo server fuel np acc2 log2

/-- A full `requestAll` call: `page = 1`, empty accumulator. -/
def requestAllRun {α : Type} (server : Int → CloudPage α) (fuel : Nat) :
    Option (List α × List (Int × Nat)) :=
  requestAllGo server fuel 1 [] []

theorem requestAllGo_zero {α : Type} (server : Int → CloudPage α)
    (page : Int) (acc : List α) (log : List (Int × Nat)) :
    requestAllGo server 0 page acc log = none := rfl

theorem requestAllGo_succ {α : Type} (server : Int → CloudPage α)
    (fuel : Nat) (page : Int) (acc : List α) (log : List (Int × Nat)) :
    requestAllGo server (fuel + 1) page acc log =
      (match (server page).nextPage with
       | none => some (acc ++ itemsOf (server page).items,
           log ++ [(page, perPage)])
       | some np =>
         if np = 0 then
           some (acc ++ itemsOf (server page).items, log ++ [(page, perPage)])
         else
           requestAllGo server fuel np (acc ++ itemsOf (server page).items)
             (log ++ [(page, perPage)])) := rfl

/-- The pagination loop terminates against `server`: some finite fuel
suffices. -/
def paginationTerminates {α : Type} (server : Int → CloudPage α) : Prop :=
  ∃ fuel, (requestAllRun server fuel).isSome

/-! ## Action poller (`CloudClient.pollAction`)

`statuses n` is the status the `n`-th fetch of the action reports and
`reqDur n` how many milliseconds that fetch takes; `delay` starts at
1000 and grows by `× 1.5` capped at 5000 (all slept values are whole
milliseconds, so `Nat` arithmetic is exact).  The wall clock is the
`elapsed` accumulator: checked against `timeoutMs` at the top of each
iteration, advanced by the fetch duration and the sleep. -/

/-- `HetznerAction.status`. -/
inductive ActionStatus where
  | running
  | success
  | error
  deriving DecidableEq, Repr

/-- Result of `pollAction`: the terminal status returned as data
(an `error` status included), the `POLL_TIMEOUT` failure naming the
action, or fuel exhaustion of the embedding. -/
inductive PollResult where
  | completed (status : ActionStatus)
  | pollTimeout (actionId : Nat)
  | fuelOut
  deriving DecidableEq, Repr

/-- The `while (Date.now() - start < timeoutMs)` loop of
`pollAction`, returning the result and the list of slept delays. -/
def pollGo (statuses : Nat → ActionStatus) (reqDur : Nat → Nat)
    (actionId timeoutMs : Nat) :
    Nat → Nat → Nat → Nat → PollResult × List Nat
  | fuel, n, elapsed, delay =>
    if elapsed < timeoutMs then
      match fuel with
      | 0 => (.fuelOut, [])
      | fuel + 1 =>
        match statuses n with
        | .running =>
          let r := pollGo statuses reqDur actionId timeoutMs fuel (n + 1)
            (elapsed + reqDur n + delay) (min (delay * 3 / 2) 5000)
          (r.1, delay :: r.2)
        | s => (.completed s, [])
    else (.pollTimeout actionId, [])

/-- A full `pollAction` call: first fetch at elapsed 0, initial delay
1000 ms. -/
def pollRun (statuses : Nat → ActionStatus) (reqDur : Nat → Nat)
    (actionId timeoutMs fuel : Nat) : PollResult × List Nat :=
  pollGo statuses reqDur actionId timeoutMs fuel 0 0 1000

theorem pollGo_all_running (statuses : Nat → ActionStatus)
    (reqDur : Nat → Nat) (actionId timeoutMs : Nat)
    (hall : ∀ m, statuses m = .running) :
    ∀ (fuel n elapsed delay : Nat), 1000 ≤ delay →
      timeoutMs + 1000 ≤ elapsed + fuel * 1000 →
      (pollGo statuses reqDur actionId timeoutMs fuel n elapsed delay).1 =
        .pollTimeout actionId := by
  intro fuel
  induction fuel with
  | zero =>
    intro n elapsed delay hd hbound
    rw [pollGo, if_neg (by omega)]
  | succ fuel ih =>
    intro n elapsed delay hd hbound
    by_cases helapsed : elapsed < timeoutMs
    · rw [pollGo, if_pos helapsed, hall n]
      exact ih (n + 1) (elapsed + reqDur n + delay) (min (delay * 3 / 2) 5000)
        (by omega) (by omega)
    · rw [pollGo, if_neg helapsed]

/-- **C4.** `pollAction` returns the fetched action as a normal
result the moment its status is `success` or `error` — an `error`
status is data, not a raised failure — performing no further sleep
(an action terminal on the first poll is returned having slept not at
all); and when every poll observes `running`, the loop ends in the
`POLL_TIMEOUT` failure naming the action once the elapsed wall clock
reaches `timeoutMs`. -/
theorem c4_poll_action :
    (∀ (statuses : Nat → ActionStatus) (reqDur : Nat → Nat)
      (actionId timeoutMs fuel n elapsed delay : Nat),
      elapsed < timeoutMs → statuses n ≠ .running →
      pollGo statuses reqDur actionId timeoutMs (fuel + 1) n elapsed delay =
        (.completed (statuses n), [])) ∧
    (∀ (statuses : Nat → ActionStatus) (reqDur : Nat → Nat)
      (actionId timeoutMs fuel : Nat),
      (∀ m, statuses m = .running) →
      timeoutMs + 1000 ≤ fuel * 1000 →
      (pollRun statuses reqDur actionId timeoutMs fuel).1 =
        .pollTimeout actionId) := by
  constructor
  · intro statuses reqDur actionId timeoutMs fuel n elapsed delay ht hs
    rw [pollGo, if_pos ht]
    cases hstat : statuses n with
    | running => exact absurd hstat hs
    | success => rfl
    | error => rfl
  · intro statuses reqDur actionId timeoutMs fuel hall hbound
    exact pollGo_all_running statuses reqDur actionId timeoutMs hall fuel 0 0
      1000 (by omega) (by omega)

/-- Witness for **C4**: an action already `success` at the first poll
of a default-timeout (300 000 ms) run returns at once with no sleeps;
an action `running` forever makes a 301-iteration budget suffice to
reach `POLL_TIMEOUT` for action 42. -/
theorem c4_poll_action_witness :
    pollGo (fun _ => .success) (fun _ => 0) 42 300000 1 0 0 1000 =
      (.completed .success, []) ∧
    (pollRun (fun _ => .running) (fun _ => 0) 42 300000 301).1 =
      .pollTimeout 42 :=
  ⟨c4_poll_action.1 (fun _ => .success) (fun _ => 0) 42 300000 0 0 0 1000
      (by decide) (by decide),
   c4_poll_action.2 (fun _ => .running) (fun _ => 0) 42 300000 301
      (fun m => rfl) (by decide)⟩

/-- A server answering every page with one item and `next_page: 0`. -/
def nextZeroServer : Int → CloudPage String :=
  fun _ => ⟨.arr ["x"], some 0⟩

/-- Counterexample for **C3**: on a server whose page 1 response
carries `next_page: 0`, `requestAll` issues exactly one request and
stops, although `next_page` is present — `!meta?.pagination?.next_page`
treats `0` as absent (JavaScript falsiness), so "requests the next
page exactly when `next_page` is present" fails at `next_page = 0`. -/
theorem c3_counterexample :
    requestAllRun nextZeroServer 5 = some (["x"], [(1, perPage)]) := by
  decide

/-- **C3 (amended).** (1) For every server whose pages 1, 2, 3 carry
the arrays `l1`, `l2`, `l3` under the collection key and `next_page`
values 2, 3, null in turn, `requestAll` issues exactly the three
requests `(page, per_page) = (1, 50), (2, 50), (3, 50)` and returns
`l1 ++ l2 ++ l3` in page order; (2) in general the loop requests the
next page exactly when `meta.pagination.next_page` is present *and
nonzero*, and (3) stops when it is absent or `0` (falsy). -/
theorem c3_pagination :
    (∀ (α : Type) (l1 l2 l3 : List α) (server : Int → CloudPage α),
      server 1 = ⟨.arr l1, some 2⟩ → server 2 = ⟨.arr l2, some 3⟩ →
      server 3 = ⟨.arr l3, none⟩ →
      ∀ fuel : Nat, requestAllRun server (fuel + 3) =
        some (l1 ++ l2 ++ l3, [(1, perPage), (2, perPage), (3, perPage)])) ∧
    (∀ (α : Type) (server : Int → CloudPage α) (fuel : Nat) (page np : Int)
      (acc : List α) (log : List (Int × Nat)),
      (server page).nextPage = some np → np ≠ 0 →
      requestAllGo server (fuel + 1) page acc log =
        requestAllGo server fuel np (acc ++ itemsOf (server page).items)
          (log ++ [(page, perPage)])) ∧
    (∀ (α : Type) (server : Int → CloudPage α) (fuel : Nat) (page : Int)
      (acc : List α) (log : List (Int × Nat)),
      ((server page).nextPage = none ∨ (server page).nextPage = some 0) →
      requestAllGo server (fuel + 1) page acc log =
        some (acc ++ itemsOf (server page).items,
          log ++ [(page, perPage)])) := by
  refine ⟨?_, ?_, ?_⟩
  · intro α l1 l2 l3 server h1 h2 h3 fuel
    have e3 : fuel + 3 = (fuel + 2) + 1 := rfl
    have e2 : fuel + 2 = (fuel + 1) + 1 := rfl
    rw [requestAllRun, e3, requestAllGo_succ, h1]
    simp only []
    rw [e2, requestAllGo_succ, h2]
    simp only []
    rw [requestAllGo_succ, h3]
    simp [itemsOf]
  · intro α server fuel page np acc log hnp hnz
    rw [requestAllGo_succ, hnp]
    simp [hnz]
  · intro α server fuel page acc log hstop
    rcases hstop with h | h
    · rw [requestAllGo_succ, h]
    · rw [requestAllGo_succ, h]
      simp

/-- Witness for **C3 (amended)**: a concrete three-page server with
items `["a"]`, `["b"]`, `["c"]` returns them concatenated after
exactly the requests `(1,50), (2,50), (3,50)`, and the step
characterizations instantiated on it. -/
theorem c3_pagination_witness :
    requestAllRun
        (fun p => if p = 1 then ⟨.arr ["a"], some 2⟩
          else if p = 2 then ⟨.arr ["b"], some 3⟩
          else (⟨.arr ["c"], none⟩ : CloudPage String)) 3 =
      some (["a", "b", "c"], [(1, perPage), (2, perPage), (3, perPage)]) :=
  c3_pagination.1 String ["a"] ["b"] ["c"]
    (fun p => if p = 1 then ⟨.arr ["a"], some 2⟩
      else if p = 2 then ⟨.arr ["b"], some 3⟩
      else ⟨.arr ["c"], none⟩)
    rfl rfl rfl 0

/-- A server that always answers `next_page: 2`. -/
def loopingServer : Int → CloudPage Unit :=
  fun _ => ⟨.arr [], some 2⟩

theorem loopingServer_no_fuel (fuel : Nat) :
    ∀ (page : Int) (acc : List Unit) (log : List (Int × Nat)),
      requestAllGo loopingServer fuel page acc log = none := by
  induction fuel with
  | zero => intro page acc log; rw [requestAllGo_zero]
  | succ fuel ih =>
    intro page acc log
    rw [requestAllGo_succ]
    simpa [loopingServer] using ih 2 _ _

/-- Counterexample for **C8**: against a misbehaving server that
repeats `next_page: 2` forever, the pagination loop never terminates
— no finite fuel completes the run, because the requested page number
does not increase and the code has no guard. -/
theorem c8_counterexample : ¬ paginationTerminates loopingServer := by
  rintro ⟨fuel, hsome⟩
  rw [requestAllRun, loopingServer_no_fuel] at hsome
  simp at hsome

/-- **C8 (amended).** `requestAll` terminates whenever the server's
`next_page` values strictly increase the requested page number and
`next_page` is absent from some page bound `N` on (as for an honest
finite collection); a server that repeats the same `next_page` value
defeats the loop, which has no guard against it. -/
theorem c8_termination (α : Type) (server : Int → CloudPage α) (N : Int)
    (hmono : ∀ p np : Int, (server p).nextPage = some np → p < np)
    (hterm : ∀ p : Int, N ≤ p → (server p).nextPage = none) :
    paginationTerminates server := by
  have key : ∀ (fuel : Nat) (page : Int) (acc : List α)
      (log : List (Int × Nat)), N ≤ page + fuel →
      (requestAllGo server (fuel + 1) page acc log).isSome := by
    intro fuel
    induction fuel with
    | zero =>
      intro page acc log hb
      rw [requestAllGo_succ, hterm page (by omega)]
      simp
    | succ fuel ih =>
      intro page acc log hb
      rw [requestAllGo_succ]
      cases hnp : (server page).nextPage with
      | none => simp
      | some np =>
        by_cases hz : np = 0
        · simp [hz]
        · have hlt := hmono page np hnp
          simp only [hz, if_false]
          exact ih np _ _ (by omega)
  rcases Int.le_total N 1 with hN | hN
  · exact ⟨1, key 0 1 [] [] (by omega)⟩
  · refine ⟨(N - 1).toNat + 1, key (N - 1).toNat 1 [] [] ?_⟩
    omega

/-- Witness for **C8 (amended)**: a single-page server (no
`next_page` anywhere) terminates. -/
theorem c8_termination_witness :
    paginationTerminates (fun _ => (⟨.arr [()], none⟩ : CloudPage Unit)) :=
  c8_termination Unit (fun _ => ⟨.arr [()], none⟩) 0
    (fun p np h => by simp at h) (fun p _ => rfl)

/-- **C10.** A page whose collection-key value is missing or not an
array raises nothing and contributes no items: the loop proceeds with
the accumulator unchanged, continuing or stopping exactly as
`next_page` dictates. -/
theorem c10_non_array_page (α : Type) (server : Int → CloudPage α)
    (fuel : Nat) (page : Int) (acc : List α) (log : List (Int × Nat))
    (h : (server page).items = .notArr) :
    (∀ np : Int, (server page).nextPage = some np → np ≠ 0 →
      requestAllGo server (fuel + 1) page acc log =
        requestAllGo server fuel np acc (log ++ [(page, perPage)])) ∧
    (((server page).nextPage = none ∨ (server page).nextPage = some 0) →
      requestAllGo server (fuel + 1) page acc log =
        some (acc, log ++ [(page, perPage)])) := by
  constructor
  · intro np hnp hnz
    rw [requestAllGo_succ, hnp, h]
    simp [hnz, itemsOf]
  · intro hstop
    rcases hstop with hst | hst
    · rw [requestAllGo_succ, hst, h]
      simp [itemsOf]
    · rw [requestAllGo_succ, hst, h]
      simp [itemsOf]

/-- Witness for **C10**: a server whose only page lacks an array under
the key returns the empty collection after one request. -/
theorem c10_non_array_page_witness :
    requestAllGo (fun _ => (⟨.notArr, none⟩ : CloudPage Unit)) 1 1 [] [] =
      some ([], [(1, perPage)]) := by
  have h := (c10_non_array_page Unit (fun _ => ⟨.notArr, none⟩) 0 1 [] []
    rfl).2 (Or.inl rfl)
  simpa using h

/-- Counterexample for **C9**: all three rate-limit headers present,
but `RateLimit-Limit` carries the empty string — `limit && remaining
&& reset` is falsy, so `parseRateLimitHeaders` returns `null` even
though every header is present. -/
theorem c9_counterexample :
    parseRateLimitHeaders ⟨some "", some "100", some "50"⟩ = none ∧
    (RespHeaders.mk (some "") (some "100")
      (some "50")).rateLimitLimit.isSome = true ∧
    (RespHeaders.mk (some "") (some "100")
      (some "50")).rateLimitRemaining.isSome = true ∧
    (RespHeaders.mk (some "") (some "100")
      (some "50")).rateLimitReset.isSome = true := by
  decide

/-- **C9 (amended).** After every `CloudClient.request` that receives
an HTTP response — success and error statuses alike — `lastRateLimit`
is overwritten with `parseRateLimitHeaders` of that response's
headers; the parser yields a snapshot exactly when all three headers
are present *with nonempty values* (JavaScript truthiness: an
empty-string header counts as missing); in particular a response
missing any of the three resets `lastRateLimit` to `null`, discarding
any previously stored snapshot. -/
theorem c9_rate_limit_tracking :
    (∀ (T : Type) (lastRL : Option RateLimitInfo) (status : Nat)
      (headers : RespHeaders) (cl0 : Bool) (eb : Option CloudErrBody)
      (st : String) (json : Except String T),
      (cloudRequest lastRL (.resp status headers cl0 eb st json)).2 =
        parseRateLimitHeaders headers) ∧
    (∀ headers : RespHeaders,
      (parseRateLimitHeaders headers).isSome = true ↔
        (jsTruthyStr headers.rateLimitLimit &&
          jsTruthyStr headers.rateLimitRemaining &&
          jsTruthyStr headers.rateLimitReset) = true) ∧
    (∀ (T : Type) (lastRL : Option RateLimitInfo) (status : Nat)
      (headers : RespHeaders) (cl0 : Bool) (eb : Option CloudErrBody)
      (st : String) (json : Except String T),
      (headers.rateLimitLimit = none ∨ headers.rateLimitRemaining = none ∨
        headers.rateLimitReset = none) →
      (cloudRequest lastRL (.resp status headers cl0 eb st json)).2 =
        none) := by
  refine ⟨fun T lastRL status headers cl0 eb st json => rfl, ?_, ?_⟩
  · intro headers
    by_cases h : (jsTruthyStr headers.rateLimitLimit &&
        jsTruthyStr headers.rateLimitRemaining &&
        jsTruthyStr headers.rateLimitReset) = true
    · simp [parseRateLimitHeaders, h]
    · simp [parseRateLimitHeaders, h]
  · intro T lastRL status headers cl0 eb st json hmiss
    show parseRateLimitHeaders headers = none
    rcases hmiss with h | h | h <;>
      simp [parseRateLimitHeaders, jsTruthyStr, h]

/-- Witness for **C9 (amended)**: an error-status (429) response whose
headers lack `RateLimit-Limit` resets a previously stored snapshot to
`null`. -/
theorem c9_rate_limit_tracking_witness :
    (cloudRequest (some ⟨some 1000, some 200, some 1700000000⟩)
        (CloudFetchOutcome.resp 429 ⟨none, some "100", some "50"⟩ false none
          "Too Many Requests" (Except.error "no body") :
          CloudFetchOutcome Unit)).2 = none :=
  c9_rate_limit_tracking.2.2 Unit (some ⟨some 1000, some 200, some 1700000000⟩)
    429 ⟨none, some "100", some "50"⟩ false none "Too Many Requests"
    (Except.error "no body") (Or.inl rfl)

end HetznerMcp
